import Mathlib

/-!
Shallow embedding of the deno_webview plugin core (src/lib.rs): the instance
registry (thread-local counter INSTANCE_INDEX and map INSTANCE_MAP) and the
eight operation-bridge functions.  Native webview calls are modelled by an
oracle supplying their return values, and every native invocation is recorded
in a trace.  A panicking `unwrap` (serde decode failure, `CString::new` on a
string with an interior NUL) is modelled by the `panic'` outcome, which at the
trace level kills the process: no later request is processed.
-/

namespace DenoWebview

/-- Modulus of the `u32` instance counter. -/
def UINT32_MOD : Nat := 4294967296

/-- Thread-local registry state: `INSTANCE_INDEX : u32` and
`INSTANCE_MAP : HashMap<u32, *mut CWebView>`; a pointer is modelled as a `Nat`
and the hash map as an association list with unique keys. -/
structure RegistryState where
  instance_index : Nat
  instance_map : List (Nat × Nat)
deriving DecidableEq

/-- Both thread-locals start empty: counter 0, empty map. -/
def initialState : RegistryState := { instance_index := 0, instance_map := [] }

/-- HashMap::contains_key. -/
def hashmapContains (m : List (Nat × Nat)) (k : Nat) : Bool :=
  m.any (fun p => p.1 == k)

/-- HashMap::get. -/
def hashmapGet (m : List (Nat × Nat)) (k : Nat) : Option Nat :=
  (m.find? (fun p => p.1 == k)).map (fun p => p.2)

/-- HashMap::insert: overwrites any existing binding of the key. -/
def hashmapInsert (m : List (Nat × Nat)) (k v : Nat) : List (Nat × Nat) :=
  (k, v) :: m.filter (fun p => p.1 != k)

/-- The NUL character, which `CString::new` rejects when embedded. -/
def nulChar : Char := Char.ofNat 0

/-- CString::new: fails exactly when the string has an embedded NUL byte; it
never truncates. -/
def cstring_new (s : String) : Option String :=
  if s.data.contains nulChar then none else some s

/-- Rust `as i32` on a `bool`. -/
def boolToInt (b : Bool) : Int := if b then 1 else 0

/-- One recorded invocation of the native webview library. -/
inductive NativeCall where
  | webview_new (title url : String) (width height resizable debug frameless : Int)
  | webview_exit (inst : Nat)
  | webview_eval (inst : Nat) (js : String)
  | webview_set_color (inst : Nat) (r g b a : Nat)
  | webview_set_title (inst : Nat) (title : String)
  | webview_set_fullscreen (inst : Nat) (fullscreen : Int)
  | webview_loop (inst : Nat) (blocking : Int)
deriving DecidableEq

/-- Return values of the native library, supplied by the environment:
`webview_new` yields a pointer, `webview_eval` a status, `webview_loop` a
loop code.  All other native calls return nothing. -/
structure NativeOracle where
  webview_new : String → String → Int → Int → Int → Int → Int → Nat
  webview_eval : Nat → String → Int
  webview_loop : Nat → Int → Int

/-- The response envelope `WebViewResponse { err, ok }`. -/
structure WebViewResponse (T : Type) where
  err : Option String
  ok : Option T
deriving DecidableEq

/-- Result of one op invocation: either a serialized response, or a panic from
an `unwrap` (decode failure or embedded NUL); a panic produces no response. -/
inductive OpOutcome (T : Type) where
  | panic'
  | response (resp : WebViewResponse T)
deriving DecidableEq

/-- Map over the `ok` payload of an outcome. -/
def OpOutcome.mapOk {A B : Type} (f : A → B) : OpOutcome A → OpOutcome B
  | OpOutcome.panic' => OpOutcome.panic'
  | OpOutcome.response r => OpOutcome.response { err := r.err, ok := r.ok.map f }

/-- The error message `format!("Could not find instance of id {}", id)`. -/
def notFoundMessage (id : Nat) : String :=
  "Could not find instance of id " ++ toString id

structure WebViewNewParams where
  title : String
  url : String
  width : Int
  height : Int
  resizable : Bool
  debug : Bool
  frameless : Bool
deriving DecidableEq

structure WebViewNewResult where
  id : Nat
deriving DecidableEq

/-- op_webview_new: decode, bump the counter (returning its old value), build
the C strings, call the native constructor and insert the handle, respond with
the id.  The request arrives pre-decoded: `none` models a payload
`serde_json::from_slice` rejects. -/
def op_webview_new (oracle : NativeOracle) (data : Option WebViewNewParams)
    (s : RegistryState) :
    OpOutcome WebViewNewResult × RegistryState × List NativeCall :=
  match data with
  | none => (OpOutcome.panic', s, [])
  | some params =>
    let instance_id := s.instance_index
    let s1 : RegistryState :=
      { s with instance_index := (s.instance_index + 1) % UINT32_MOD }
    match cstring_new params.title, cstring_new params.url with
    | some title, some url =>
      let handle := oracle.webview_new title url params.width params.height
        (boolToInt params.resizable) (boolToInt params.debug)
        (boolToInt params.frameless)
      (OpOutcome.response { err := none, ok := some { id := instance_id } },
        { s1 with instance_map := hashmapInsert s1.instance_map instance_id handle },
        [NativeCall.webview_new title url params.width params.height
          (boolToInt params.resizable) (boolToInt params.debug)
          (boolToInt params.frameless)])
    | _, _ => (OpOutcome.panic', s1, [])

structure WebViewExitParams where
  id : Nat
deriving DecidableEq

structure WebViewExitResult where
deriving DecidableEq

/-- op_webview_exit: look the id up; if absent respond err, otherwise call the
native webview_exit on the handle and respond ok.  The map entry is NOT
removed. -/
def op_webview_exit (data : Option WebViewExitParams) (s : RegistryState) :
    OpOutcome WebViewExitResult × RegistryState × List NativeCall :=
  match data with
  | none => (OpOutcome.panic', s, [])
  | some params =>
    if hashmapContains s.instance_map params.id = false then
      (OpOutcome.response { err := some (notFoundMessage params.id), ok := none },
        s, [])
    else
      match hashmapGet s.instance_map params.id with
      | none => (OpOutcome.panic', s, [])
      | some inst =>
        (OpOutcome.response { err := none, ok := some {} }, s,
          [NativeCall.webview_exit inst])

structure WebViewEvalParams where
  id : Nat
  js : String
deriving DecidableEq

structure WebViewEvalResult where
deriving DecidableEq

/-- op_webview_eval: look the id up; if absent respond err; otherwise build the
C string for the script and call webview_eval, responding ok on status 0 and
err "Could not evaluate javascript" otherwise. -/
def op_webview_eval (oracle : NativeOracle) (data : Option WebViewEvalParams)
    (s : RegistryState) :
    OpOutcome WebViewEvalResult × RegistryState × List NativeCall :=
  match data with
  | none => (OpOutcome.panic', s, [])
  | some params =>
    if hashmapContains s.instance_map params.id = false then
      (OpOutcome.response { err := some (notFoundMessage params.id), ok := none },
        s, [])
    else
      match hashmapGet s.instance_map params.id with
      | none => (OpOutcome.panic', s, [])
      | some inst =>
        match cstring_new params.js with
        | none => (OpOutcome.panic', s, [])
        | some js =>
          if oracle.webview_eval inst js = 0 then
            (OpOutcome.response { err := none, ok := some {} }, s,
              [NativeCall.webview_eval inst js])
          else
            (OpOutcome.response
                { err := some "Could not evaluate javascript", ok := none }, s,
              [NativeCall.webview_eval inst js])

structure WebViewSetColorParams where
  id : Nat
  r : Nat
  g : Nat
  b : Nat
  a : Nat
deriving DecidableEq

structure WebViewSetColorResult where
deriving DecidableEq

/-- op_webview_set_color: look up, then webview_set_color, always ok. -/
def op_webview_set_color (data : Option WebViewSetColorParams)
    (s : RegistryState) :
    OpOutcome WebViewSetColorResult × RegistryState × List NativeCall :=
  match data with
  | none => (OpOutcome.panic', s, [])
  | some params =>
    if hashmapContains s.instance_map params.id = false then
      (OpOutcome.response { err := some (notFoundMessage params.id), ok := none },
        s, [])
    else
      match hashmapGet s.instance_map params.id with
      | none => (OpOutcome.panic', s, [])
      | some inst =>
        (OpOutcome.response { err := none, ok := some {} }, s,
          [NativeCall.webview_set_color inst params.r params.g params.b
            params.a])

structure WebViewSetTitleParams where
  id : Nat
  title : String
deriving DecidableEq

structure WebViewSetTitleResult where
deriving DecidableEq

/-- op_webview_set_title: look up, build the C string, webview_set_title,
always ok. -/
def op_webview_set_title (data : Option WebViewSetTitleParams)
    (s : RegistryState) :
    OpOutcome WebViewSetTitleResult × RegistryState × List NativeCall :=
  match data with
  | none => (OpOutcome.panic', s, [])
  | some params =>
    if hashmapContains s.instance_map params.id = false then
      (OpOutcome.response { err := some (notFoundMessage params.id), ok := none },
        s, [])
    else
      match hashmapGet s.instance_map params.id with
      | none => (OpOutcome.panic', s, [])
      | some inst =>
        match cstring_new params.title with
        | none => (OpOutcome.panic', s, [])
        | some title =>
          (OpOutcome.response { err := none, ok := some {} }, s,
            [NativeCall.webview_set_title inst title])

structure WebViewSetFullscreenParams where
  id : Nat
  fullscreen : Bool
deriving DecidableEq

structure WebViewSetFullscreenResult where
deriving DecidableEq

/-- op_webview_set_fullscreen: look up, webview_set_fullscreen with the flag as
i32, always ok. -/
def op_webview_set_fullscreen (data : Option WebViewSetFullscreenParams)
    (s : RegistryState) :
    OpOutcome WebViewSetFullscreenResult × RegistryState × List NativeCall :=
  match data with
  | none => (OpOutcome.panic', s, [])
  | some params =>
    if hashmapContains s.instance_map params.id = false then
      (OpOutcome.response { err := some (notFoundMessage params.id), ok := none },
        s, [])
    else
      match hashmapGet s.instance_map params.id with
      | none => (OpOutcome.panic', s, [])
      | some inst =>
        (OpOutcome.response { err := none, ok := some {} }, s,
          [NativeCall.webview_set_fullscreen inst
            (boolToInt params.fullscreen)])

structure WebViewLoopParams where
  id : Nat
  blocking : Int
deriving DecidableEq

structure WebViewLoopResult where
  code : Int
deriving DecidableEq

/-- op_webview_loop: look up, call webview_loop and respond ok with whatever
code the native step returns; never err for a present id. -/
def op_webview_loop (oracle : NativeOracle) (data : Option WebViewLoopParams)
    (s : RegistryState) :
    OpOutcome WebViewLoopResult × RegistryState × List NativeCall :=
  match data with
  | none => (OpOutcome.panic', s, [])
  | some params =>
    if hashmapContains s.instance_map params.id = false then
      (OpOutcome.response { err := some (notFoundMessage params.id), ok := none },
        s, [])
    else
      match hashmapGet s.instance_map params.id with
      | none => (OpOutcome.panic', s, [])
      | some inst =>
        (OpOutcome.response
            { err := none,
              ok := some { code := oracle.webview_loop inst params.blocking } },
          s, [NativeCall.webview_loop inst params.blocking])

structure WebViewGetUserDataParams where
  id : Nat
deriving DecidableEq

structure WebViewGetUserDataResult where
deriving DecidableEq

/-- op_webview_get_user_data: async in the source but completes immediately;
look up, respond ok with an empty payload, no native call. -/
def op_webview_get_user_data (data : Option WebViewGetUserDataParams)
    (s : RegistryState) :
    OpOutcome WebViewGetUserDataResult × RegistryState × List NativeCall :=
  match data with
  | none => (OpOutcome.panic', s, [])
  | some params =>
    if hashmapContains s.instance_map params.id = false then
      (OpOutcome.response { err := some (notFoundMessage params.id), ok := none },
        s, [])
    else
      match hashmapGet s.instance_map params.id with
      | none => (OpOutcome.panic', s, [])
      | some _ =>
        (OpOutcome.response { err := none, ok := some {} }, s, [])

/-- One request as dispatched by name through deno_plugin_init's registration
table; the payload is pre-decoded, `none` standing for bytes serde rejects. -/
inductive Request where
  | new (data : Option WebViewNewParams)
  | exit (data : Option WebViewExitParams)
  | eval (data : Option WebViewEvalParams)
  | set_color (data : Option WebViewSetColorParams)
  | set_title (data : Option WebViewSetTitleParams)
  | set_fullscreen (data : Option WebViewSetFullscreenParams)
  | loop (data : Option WebViewLoopParams)
  | get_user_data (data : Option WebViewGetUserDataParams)
deriving DecidableEq

/-- Uniform view of the operation-specific ok payloads: `{id}` from create,
`{}` from the empty results, `{code}` from the loop op. -/
inductive ResponsePayload where
  | idResult (id : Nat)
  | emptyResult
  | codeResult (code : Int)
deriving DecidableEq

/-- Dispatch one request to its op and erase the payload type. -/
def step (oracle : NativeOracle) (req : Request) (s : RegistryState) :
    OpOutcome ResponsePayload × RegistryState × List NativeCall :=
  match req with
  | Request.new d =>
    let r := op_webview_new oracle d s
    (r.1.mapOk (fun x => ResponsePayload.idResult x.id), r.2.1, r.2.2)
  | Request.exit d =>
    let r := op_webview_exit d s
    (r.1.mapOk (fun _ => ResponsePayload.emptyResult), r.2.1, r.2.2)
  | Request.eval d =>
    let r := op_webview_eval oracle d s
    (r.1.mapOk (fun _ => ResponsePayload.emptyResult), r.2.1, r.2.2)
  | Request.set_color d =>
    let r := op_webview_set_color d s
    (r.1.mapOk (fun _ => ResponsePayload.emptyResult), r.2.1, r.2.2)
  | Request.set_title d =>
    let r := op_webview_set_title d s
    (r.1.mapOk (fun _ => ResponsePayload.emptyResult), r.2.1, r.2.2)
  | Request.set_fullscreen d =>
    let r := op_webview_set_fullscreen d s
    (r.1.mapOk (fun _ => ResponsePayload.emptyResult), r.2.1, r.2.2)
  | Request.loop d =>
    let r := op_webview_loop oracle d s
    (r.1.mapOk (fun x => ResponsePayload.codeResult x.code), r.2.1, r.2.2)
  | Request.get_user_data d =>
    let r := op_webview_get_user_data d s
    (r.1.mapOk (fun _ => ResponsePayload.emptyResult), r.2.1, r.2.2)

/-- The decoded target id of a non-create request; `none` for create and for
requests whose payload does not decode. -/
def requestTargetId : Request → Option Nat
  | Request.exit (some p) => some p.id
  | Request.eval (some p) => some p.id
  | Request.set_color (some p) => some p.id
  | Request.set_title (some p) => some p.id
  | Request.set_fullscreen (some p) => some p.id
  | Request.loop (some p) => some p.id
  | Request.get_user_data (some p) => some p.id
  | _ => none

/-- Whether the request's payload decoded successfully. -/
def requestDecoded : Request → Bool
  | Request.new d => d.isSome
  | Request.exit d => d.isSome
  | Request.eval d => d.isSome
  | Request.set_color d => d.isSome
  | Request.set_title d => d.isSome
  | Request.set_fullscreen d => d.isSome
  | Request.loop d => d.isSome
  | Request.get_user_data d => d.isSome

/-- State of a whole process run: the registry, the ids returned by create so
far, the responses produced so far, the accumulated native-call trace, and
whether the process is still alive (a panic kills it). -/
structure RunState where
  reg : RegistryState
  created : List Nat
  responses : List (WebViewResponse ResponsePayload)
  calls : List NativeCall
  alive : Bool
deriving DecidableEq

/-- A fresh process: empty registry, nothing created, alive. -/
def initialRunState : RunState :=
  { reg := initialState, created := [], responses := [], calls := [], alive := true }

/-- The id a response hands back from create, if any. -/
def createdOf (r : WebViewResponse ResponsePayload) : List Nat :=
  match r.ok with
  | some (ResponsePayload.idResult id) => [id]
  | _ => []

/-- Process one request: a dead process ignores it; a panic kills the process
after its partial state effects; a response is recorded. -/
def runStep (oracle : NativeOracle) (rs : RunState) (req : Request) : RunState :=
  if rs.alive then
    match step oracle req rs.reg with
    | (OpOutcome.panic', s2, cs) =>
      { rs with reg := s2, calls := rs.calls ++ cs, alive := false }
    | (OpOutcome.response r, s2, cs) =>
      { reg := s2, created := rs.created ++ createdOf r,
        responses := rs.responses ++ [r], calls := rs.calls ++ cs, alive := true }
  else rs

/-- Run a whole request sequence from process start. -/
def run (oracle : NativeOracle) (reqs : List Request) : RunState :=
  List.foldl (runStep oracle) initialRunState reqs

/-- A concrete oracle for witnesses: handles are 7, eval succeeds, loop says
continue. -/
def oracleDefault : NativeOracle :=
  { webview_new := fun _ _ _ _ _ _ _ => 7,
    webview_eval := fun _ _ => 0,
    webview_loop := fun _ _ => 0 }

/-- A concrete well-formed create request. -/
def createReqDefault : Request :=
  Request.new (some { title := "T", url := "U", width := 320, height := 240,
                      resizable := true, debug := false, frameless := false })

/-! Basic facts about the association-list model of the hash map. -/

theorem hashmapContains_eq_isSome (m : List (Nat × Nat)) (k : Nat) :
    hashmapContains m k = (hashmapGet m k).isSome := by
  induction m with
  | nil => rfl
  | cons a t ih =>
    by_cases h : a.1 = k
    · simp [hashmapContains, hashmapGet, List.any_cons, List.find?_cons_of_pos, h]
    · have hb : (a.1 == k) = false := by simp [h]
      rw [hashmapContains, hashmapGet, List.any_cons,
        List.find?_cons_of_neg _ (by simp [h])]
      simp only [hb, Bool.false_or]
      exact ih

theorem hashmapGet_insert_self (m : List (Nat × Nat)) (k v : Nat) :
    hashmapGet (hashmapInsert m k v) k = some v := by
  simp [hashmapGet, hashmapInsert, List.find?_cons_of_pos]

theorem any_key_filter_ne (m : List (Nat × Nat)) (j k : Nat) (h : j ≠ k) :
    (m.filter (fun p => p.1 != k)).any (fun p => p.1 == j) =
      m.any (fun p => p.1 == j) := by
  induction m with
  | nil => rfl
  | cons a t ih =>
    by_cases ha : a.1 = k
    · have hb : (a.1 != k) = false := by simp [ha]
      have hj : (a.1 == j) = false := by simp [ha]; omega
      simp [List.filter_cons, hb, hj, ih]
    · have hb : (a.1 != k) = true := by simp [ha]
      simp [List.filter_cons, hb, List.any_cons, ih]

theorem hashmapContains_insert (m : List (Nat × Nat)) (k v j : Nat) :
    hashmapContains (hashmapInsert m k v) j = true ↔
      j = k ∨ hashmapContains m j = true := by
  by_cases h : j = k
  · subst h
    simp [hashmapContains, hashmapInsert, List.any_cons]
  · have hb : (k == j) = false := by simp; omega
    simp only [hashmapContains, hashmapInsert, List.any_cons, hb, Bool.false_or]
    rw [any_key_filter_ne m j k h]
    simp [hashmapContains, h]

theorem hashmapInsert_length_of_not_contains (m : List (Nat × Nat)) (k v : Nat)
    (h : hashmapContains m k = false) :
    (hashmapInsert m k v).length = m.length + 1 := by
  have hfil : m.filter (fun p => p.1 != k) = m := by
    apply List.filter_eq_self.mpr
    intro a ha
    have hak : ¬ ((a.1 == k) = true) := by
      intro hk
      have hc : hashmapContains m k = true := by
        simp only [hashmapContains, List.any_eq_true]
        exact ⟨a, ha, hk⟩
      simp [hc] at h
    simpa using hak
  simp [hashmapInsert, hfil]

/-! State-preservation facts for the non-create ops: none of them ever touches
the registry (in particular, exit does not remove its entry). -/

theorem op_webview_exit_state (d : Option WebViewExitParams) (s : RegistryState) :
    (op_webview_exit d s).2.1 = s := by
  cases d with
  | none => rfl
  | some p =>
    simp only [op_webview_exit]
    repeat' split
    all_goals rfl

theorem op_webview_eval_state (oracle : NativeOracle) (d : Option WebViewEvalParams)
    (s : RegistryState) : (op_webview_eval oracle d s).2.1 = s := by
  cases d with
  | none => rfl
  | some p =>
    simp only [op_webview_eval]
    repeat' split
    all_goals rfl

theorem op_webview_set_color_state (d : Option WebViewSetColorParams)
    (s : RegistryState) : (op_webview_set_color d s).2.1 = s := by
  cases d with
  | none => rfl
  | some p =>
    simp only [op_webview_set_color]
    repeat' split
    all_goals rfl

theorem op_webview_set_title_state (d : Option WebViewSetTitleParams)
    (s : RegistryState) : (op_webview_set_title d s).2.1 = s := by
  cases d with
  | none => rfl
  | some p =>
    simp only [op_webview_set_title]
    repeat' split
    all_goals rfl

theorem op_webview_set_fullscreen_state (d : Option WebViewSetFullscreenParams)
    (s : RegistryState) : (op_webview_set_fullscreen d s).2.1 = s := by
  cases d with
  | none => rfl
  | some p =>
    simp only [op_webview_set_fullscreen]
    repeat' split
    all_goals rfl

theorem op_webview_loop_state (oracle : NativeOracle) (d : Option WebViewLoopParams)
    (s : RegistryState) : (op_webview_loop oracle d s).2.1 = s := by
  cases d with
  | none => rfl
  | some p =>
    simp only [op_webview_loop]
    repeat' split
    all_goals rfl

theorem op_webview_get_user_data_state (d : Option WebViewGetUserDataParams)
    (s : RegistryState) : (op_webview_get_user_data d s).2.1 = s := by
  cases d with
  | none => rfl
  | some p =>
    simp only [op_webview_get_user_data]
    repeat' split
    all_goals rfl

/-- A payload map that never yields an id contributes no created id. -/
theorem createdOf_mapOk_nonId (A : Type) (f : A → ResponsePayload)
    (hf : ∀ a x, f a ≠ ResponsePayload.idResult x) (r : WebViewResponse A) :
    createdOf { err := r.err, ok := r.ok.map f } = [] := by
  cases hok : r.ok with
  | none => rfl
  | some a =>
    rcases hfa : f a with id | _ | c
    · exact absurd hfa (hf a id)
    · simp [createdOf, hfa]
    · simp [createdOf, hfa]

/-- The run invariant: created ids are exactly 0,1,2,... reduced mod 2^32, the
map keys all come from created ids, and while the process lives the counter is
the number of creates mod 2^32. -/
def RunInv (rs : RunState) : Prop :=
  rs.created = List.map (fun k => k % UINT32_MOD) (List.range rs.created.length) ∧
  (∀ k, hashmapContains rs.reg.instance_map k = true → k ∈ rs.created) ∧
  (rs.alive = true → rs.reg.instance_index = rs.created.length % UINT32_MOD)

theorem RunInv_initial : RunInv initialRunState := by
  refine ⟨rfl, ?_, fun _ => rfl⟩
  intro k hk
  simp [initialRunState, initialState, hashmapContains] at hk

/-- Preservation for any request whose step leaves the registry untouched and
creates no id. -/
theorem RunInv_of_fixed (oracle : NativeOracle) (rs : RunState) (req : Request)
    (hstate : (step oracle req rs.reg).2.1 = rs.reg)
    (hcreatedOf : ∀ r, (step oracle req rs.reg).1 = OpOutcome.response r →
      createdOf r = [])
    (h : RunInv rs) : RunInv (runStep oracle rs req) := by
  obtain ⟨h1, h2, h3⟩ := h
  by_cases ha : rs.alive = true
  · rcases hstep : step oracle req rs.reg with ⟨o, s2, cs⟩
    have hs2 : s2 = rs.reg := by rw [hstep] at hstate; exact hstate
    cases o with
    | panic' =>
      simp only [runStep, ha, if_true, hstep]
      refine ⟨h1, ?_, fun hfalse => by simp at hfalse⟩
      intro k hk
      rw [hs2] at hk
      exact h2 k hk
    | response r =>
      have hr : createdOf r = [] := by
        apply hcreatedOf
        rw [hstep]
      simp only [runStep, ha, if_true, hstep]
      refine ⟨?_, ?_, ?_⟩
      · simp only [hr, List.append_nil]
        exact h1
      · intro k hk
        simp only [hr, List.append_nil]
        rw [hs2] at hk
        exact h2 k hk
      · intro _
        simp only [hr, List.append_nil, hs2]
        exact h3 ha
  · simp only [runStep, ha, if_false]
    exact ⟨h1, h2, h3⟩

/-- Preservation for the create request. -/
theorem RunInv_runStep_new (oracle : NativeOracle) (rs : RunState)
    (d : Option WebViewNewParams) (h : RunInv rs) :
    RunInv (runStep oracle rs (Request.new d)) := by
  obtain ⟨h1, h2, h3⟩ := h
  by_cases ha : rs.alive = true
  · cases d with
    | none =>
      simp only [runStep, ha, if_true, step, op_webview_new, OpOutcome.mapOk]
      exact ⟨h1, h2, fun hfalse => by simp at hfalse⟩
    | some p =>
      rcases hct : cstring_new p.title with _ | t
      · simp only [runStep, ha, if_true, step, op_webview_new, hct,
          OpOutcome.mapOk]
        exact ⟨h1, fun k hk => h2 k hk, fun hfalse => by simp at hfalse⟩
      · rcases hcu : cstring_new p.url with _ | u
        · simp only [runStep, ha, if_true, step, op_webview_new, hct, hcu,
            OpOutcome.mapOk]
          exact ⟨h1, fun k hk => h2 k hk, fun hfalse => by simp at hfalse⟩
        · have hidx := h3 ha
          simp only [runStep, ha, if_true, step, op_webview_new, hct, hcu,
            OpOutcome.mapOk, Option.map_some', createdOf]
          refine ⟨?_, ?_, ?_⟩
          · rw [List.length_append, h1, List.length_map, List.length_range]
            rw [List.length_singleton, List.range_succ, List.map_append]
            rw [← h1, h1, List.length_map, List.length_range, List.map_singleton]
            rw [hidx, ← h1]
          · intro k hk
            rcases (hashmapContains_insert _ _ _ _).mp hk with hkeq | hkold
            · subst hkeq
              simp
            · exact List.mem_append_left _ (h2 k hkold)
          · intro _
            rw [List.length_append, List.length_singleton, hidx]
            simp only [UINT32_MOD]
            omega
  · simp only [runStep, ha, if_false]
    exact ⟨h1, h2, h3⟩

/-- Any single step preserves the run invariant. -/
theorem runStep_preserves (oracle : NativeOracle) (rs : RunState) (req : Request)
    (h : RunInv rs) : RunInv (runStep oracle rs req) := by
  cases req with
  | new d => exact RunInv_runStep_new oracle rs d h
  | exit d =>
    apply RunInv_of_fixed oracle rs _ ?_ ?_ h
    · exact op_webview_exit_state d rs.reg
    · intro r hr
      rcases ho : (op_webview_exit d rs.reg).1 with _ | r0
      · rw [show (step oracle (Request.exit d) rs.reg).1 =
            ((op_webview_exit d rs.reg).1).mapOk
              (fun _ => ResponsePayload.emptyResult) from rfl, ho] at hr
        cases hr
      · rw [show (step oracle (Request.exit d) rs.reg).1 =
            ((op_webview_exit d rs.reg).1).mapOk
              (fun _ => ResponsePayload.emptyResult) from rfl, ho] at hr
        cases hr
        exact createdOf_mapOk_nonId _ _ (fun a x hax => by cases hax) r0
  | eval d =>
    apply RunInv_of_fixed oracle rs _ ?_ ?_ h
    · exact op_webview_eval_state oracle d rs.reg
    · intro r hr
      rcases ho : (op_webview_eval oracle d rs.reg).1 with _ | r0
      · rw [show (step oracle (Request.eval d) rs.reg).1 =
            ((op_webview_eval oracle d rs.reg).1).mapOk
              (fun _ => ResponsePayload.emptyResult) from rfl, ho] at hr
        cases hr
      · rw [show (step oracle (Request.eval d) rs.reg).1 =
            ((op_webview_eval oracle d rs.reg).1).mapOk
              (fun _ => ResponsePayload.emptyResult) from rfl, ho] at hr
        cases hr
        exact createdOf_mapOk_nonId _ _ (fun a x hax => by cases hax) r0
  | set_color d =>
    apply RunInv_of_fixed oracle rs _ ?_ ?_ h
    · exact op_webview_set_color_state d rs.reg
    · intro r hr
      rcases ho : (op_webview_set_color d rs.reg).1 with _ | r0
      · rw [show (step oracle (Request.set_color d) rs.reg).1 =
            ((op_webview_set_color d rs.reg).1).mapOk
              (fun _ => ResponsePayload.emptyResult) from rfl, ho] at hr
        cases hr
      · rw [show (step oracle (Request.set_color d) rs.reg).1 =
            ((op_webview_set_color d rs.reg).1).mapOk
              (fun _ => ResponsePayload.emptyResult) from rfl, ho] at hr
        cases hr
        exact createdOf_mapOk_nonId _ _ (fun a x hax => by cases hax) r0
  | set_title d =>
    apply RunInv_of_fixed oracle rs _ ?_ ?_ h
    · exact op_webview_set_title_state d rs.reg
    · intro r hr
      rcases ho : (op_webview_set_title d rs.reg).1 with _ | r0
      · rw [show (step oracle (Request.set_title d) rs.reg).1 =
            ((op_webview_set_title d rs.reg).1).mapOk
              (fun _ => ResponsePayload.emptyResult) from rfl, ho] at hr
        cases hr
      · rw [show (step oracle (Request.set_title d) rs.reg).1 =
            ((op_webview_set_title d rs.reg).1).mapOk
              (fun _ => ResponsePayload.emptyResult) from rfl, ho] at hr
        cases hr
        exact createdOf_mapOk_nonId _ _ (fun a x hax => by cases hax) r0
  | set_fullscreen d =>
    apply RunInv_of_fixed oracle rs _ ?_ ?_ h
    · exact op_webview_set_fullscreen_state d rs.reg
    · intro r hr
      rcases ho : (op_webview_set_fullscreen d rs.reg).1 with _ | r0
      · rw [show (step oracle (Request.set_fullscreen d) rs.reg).1 =
            ((op_webview_set_fullscreen d rs.reg).1).mapOk
              (fun _ => ResponsePayload.emptyResult) from rfl, ho] at hr
        cases hr
      · rw [show (step oracle (Request.set_fullscreen d) rs.reg).1 =
            ((op_webview_set_fullscreen d rs.reg).1).mapOk
              (fun _ => ResponsePayload.emptyResult) from rfl, ho] at hr
        cases hr
        exact createdOf_mapOk_nonId _ _ (fun a x hax => by cases hax) r0
  | loop d =>
    apply RunInv_of_fixed oracle rs _ ?_ ?_ h
    · exact op_webview_loop_state oracle d rs.reg
    · intro r hr
      rcases ho : (op_webview_loop oracle d rs.reg).1 with _ | r0
      · rw [show (step oracle (Request.loop d) rs.reg).1 =
            ((op_webview_loop oracle d rs.reg).1).mapOk
              (fun x => ResponsePayload.codeResult x.code) from rfl, ho] at hr
        cases hr
      · rw [show (step oracle (Request.loop d) rs.reg).1 =
            ((op_webview_loop oracle d rs.reg).1).mapOk
              (fun x => ResponsePayload.codeResult x.code) from rfl, ho] at hr
        cases hr
        exact createdOf_mapOk_nonId _ _ (fun a x hax => by cases hax) r0
  | get_user_data d =>
    apply RunInv_of_fixed oracle rs _ ?_ ?_ h
    · exact op_webview_get_user_data_state d rs.reg
    · intro r hr
      rcases ho : (op_webview_get_user_data d rs.reg).1 with _ | r0
      · rw [show (step oracle (Request.get_user_data d) rs.reg).1 =
            ((op_webview_get_user_data d rs.reg).1).mapOk
              (fun _ => ResponsePayload.emptyResult) from rfl, ho] at hr
        cases hr
      · rw [show (step oracle (Request.get_user_data d) rs.reg).1 =
            ((op_webview_get_user_data d rs.reg).1).mapOk
              (fun _ => ResponsePayload.emptyResult) from rfl, ho] at hr
        cases hr
        exact createdOf_mapOk_nonId _ _ (fun a x hax => by cases hax) r0

/-- Folding any request list preserves the run invariant. -/
theorem RunInv_foldl (oracle : NativeOracle) (reqs : List Request) (rs : RunState)
    (h : RunInv rs) : RunInv (List.foldl (runStep oracle) rs reqs) := by
  induction reqs generalizing rs with
  | nil => exact h
  | cons a t ih => exact ih _ (runStep_preserves oracle rs a h)

/-- The run invariant holds after every run from process start. -/
theorem RunInv_run (oracle : NativeOracle) (reqs : List Request) :
    RunInv (run oracle reqs) :=
  RunInv_foldl oracle reqs initialRunState RunInv_initial

/-! Envelope discipline: every produced response has exactly one of err/ok. -/

/-- A response with exactly one of err and ok populated. -/
def GoodResponse {T : Type} (r : WebViewResponse T) : Prop :=
  (r.err.isSome = true ∧ r.ok = none) ∨ (r.err = none ∧ r.ok.isSome = true)

/-- Every response this outcome can carry is good. -/
def OutcomeGood {T : Type} (o : OpOutcome T) : Prop :=
  ∀ r, o = OpOutcome.response r → GoodResponse r

theorem OutcomeGood_mapOk {A B : Type} (f : A → B) (o : OpOutcome A)
    (h : OutcomeGood o) : OutcomeGood (o.mapOk f) := by
  intro r hr
  cases o with
  | panic' => cases hr
  | response r0 =>
    have h0 := h r0 rfl
    simp only [OpOutcome.mapOk] at hr
    cases hr
    rcases h0 with ⟨he, ho⟩ | ⟨he, ho⟩
    · exact Or.inl ⟨he, by simp [ho]⟩
    · exact Or.inr ⟨he, by cases hoo : r0.ok <;> simp [hoo] at ho ⊢⟩

theorem op_webview_new_good (oracle : NativeOracle) (d : Option WebViewNewParams)
    (s : RegistryState) : OutcomeGood (op_webview_new oracle d s).1 := by
  cases d with
  | none => intro r hr; cases hr
  | some p =>
    simp only [op_webview_new]
    repeat' split
    all_goals intro r hr
    all_goals cases hr
    all_goals simp [GoodResponse]

theorem op_webview_exit_good (d : Option WebViewExitParams) (s : RegistryState) :
    OutcomeGood (op_webview_exit d s).1 := by
  cases d with
  | none => intro r hr; cases hr
  | some p =>
    simp only [op_webview_exit]
    repeat' split
    all_goals intro r hr
    all_goals cases hr
    all_goals simp [GoodResponse]

theorem op_webview_eval_good (oracle : NativeOracle) (d : Option WebViewEvalParams)
    (s : RegistryState) : OutcomeGood (op_webview_eval oracle d s).1 := by
  cases d with
  | none => intro r hr; cases hr
  | some p =>
    simp only [op_webview_eval]
    repeat' split
    all_goals intro r hr
    all_goals cases hr
    all_goals simp [GoodResponse]

theorem op_webview_set_color_good (d : Option WebViewSetColorParams)
    (s : RegistryState) : OutcomeGood (op_webview_set_color d s).1 := by
  cases d with
  | none => intro r hr; cases hr
  | some p =>
    simp only [op_webview_set_color]
    repeat' split
    all_goals intro r hr
    all_goals cases hr
    all_goals simp [GoodResponse]

theorem op_webview_set_title_good (d : Option WebViewSetTitleParams)
    (s : RegistryState) : OutcomeGood (op_webview_set_title d s).1 := by
  cases d with
  | none => intro r hr; cases hr
  | some p =>
    simp only [op_webview_set_title]
    repeat' split
    all_goals intro r hr
    all_goals cases hr
    all_goals simp [GoodResponse]

theorem op_webview_set_fullscreen_good (d : Option WebViewSetFullscreenParams)
    (s : RegistryState) : OutcomeGood (op_webview_set_fullscreen d s).1 := by
  cases d with
  | none => intro r hr; cases hr
  | some p =>
    simp only [op_webview_set_fullscreen]
    repeat' split
    all_goals intro r hr
    all_goals cases hr
    all_goals simp [GoodResponse]

theorem op_webview_loop_good (oracle : NativeOracle) (d : Option WebViewLoopParams)
    (s : RegistryState) : OutcomeGood (op_webview_loop oracle d s).1 := by
  cases d with
  | none => intro r hr; cases hr
  | some p =>
    simp only [op_webview_loop]
    repeat' split
    all_goals intro r hr
    all_goals cases hr
    all_goals simp [GoodResponse]

theorem op_webview_get_user_data_good (d : Option WebViewGetUserDataParams)
    (s : RegistryState) : OutcomeGood (op_webview_get_user_data d s).1 := by
  cases d with
  | none => intro r hr; cases hr
  | some p =>
    simp only [op_webview_get_user_data]
    repeat' split
    all_goals intro r hr
    all_goals cases hr
    all_goals simp [GoodResponse]

theorem step_good (oracle : NativeOracle) (req : Request) (s : RegistryState) :
    OutcomeGood (step oracle req s).1 := by
  cases req with
  | new d => exact OutcomeGood_mapOk _ _ (op_webview_new_good oracle d s)
  | exit d => exact OutcomeGood_mapOk _ _ (op_webview_exit_good d s)
  | eval d => exact OutcomeGood_mapOk _ _ (op_webview_eval_good oracle d s)
  | set_color d => exact OutcomeGood_mapOk _ _ (op_webview_set_color_good d s)
  | set_title d => exact OutcomeGood_mapOk _ _ (op_webview_set_title_good d s)
  | set_fullscreen d =>
    exact OutcomeGood_mapOk _ _ (op_webview_set_fullscreen_good d s)
  | loop d => exact OutcomeGood_mapOk _ _ (op_webview_loop_good oracle d s)
  | get_user_data d =>
    exact OutcomeGood_mapOk _ _ (op_webview_get_user_data_good d s)

/-- C4: whenever an operation produces a response, exactly one of the two
envelope fields err and ok is populated; in particular an operation with no
meaningful result still carries a present (empty) ok payload. -/
theorem response_exactly_one_of_ok_err (oracle : NativeOracle) (req : Request)
    (s : RegistryState) (r : WebViewResponse ResponsePayload)
    (hr : (step oracle req s).1 = OpOutcome.response r) :
    (r.err.isSome = true ∧ r.ok = none) ∨ (r.err = none ∧ r.ok.isSome = true) :=
  step_good oracle req s r hr

/-- Witness for C4: exit on an unknown id at process start produces a response
whose err is populated and whose ok is absent. -/
theorem response_exactly_one_of_ok_err_witness :
    (((({ err := some (notFoundMessage 3), ok := none } :
          WebViewResponse ResponsePayload)).err.isSome = true ∧
      (({ err := some (notFoundMessage 3), ok := none } :
          WebViewResponse ResponsePayload)).ok = none) ∨
     ((({ err := some (notFoundMessage 3), ok := none } :
          WebViewResponse ResponsePayload)).err = none ∧
      (({ err := some (notFoundMessage 3), ok := none } :
          WebViewResponse ResponsePayload)).ok.isSome = true)) :=
  response_exactly_one_of_ok_err oracleDefault (Request.exit (some { id := 3 }))
    initialState { err := some (notFoundMessage 3), ok := none } (by decide)

/-- C9: for an id present in the registry, the loop op responds ok with exactly
the native loop code, whatever it is, and never err. -/
theorem loop_passes_native_code_through (oracle : NativeOracle)
    (s : RegistryState) (p : WebViewLoopParams) (inst : Nat)
    (hget : hashmapGet s.instance_map p.id = some inst) :
    op_webview_loop oracle (some p) s =
      (OpOutcome.response
          { err := none, ok := some { code := oracle.webview_loop inst p.blocking } },
        s, [NativeCall.webview_loop inst p.blocking]) := by
  have hcont : hashmapContains s.instance_map p.id = true := by
    rw [hashmapContains_eq_isSome, hget]; rfl
  simp [op_webview_loop, hcont, hget]

/-- Witness for C9 at a concrete one-entry registry. -/
theorem loop_passes_native_code_through_witness :
    op_webview_loop oracleDefault (some { id := 0, blocking := 0 })
        { instance_index := 1, instance_map := [(0, 7)] } =
      (OpOutcome.response
          { err := none, ok := some { code := oracleDefault.webview_loop 7 0 } },
        { instance_index := 1, instance_map := [(0, 7)] },
        [NativeCall.webview_loop 7 0]) :=
  loop_passes_native_code_through oracleDefault
    { instance_index := 1, instance_map := [(0, 7)] }
    { id := 0, blocking := 0 } 7 (by decide)

/-- An oracle whose native eval always reports failure status 1. -/
def oracleEvalFail : NativeOracle :=
  { webview_new := fun _ _ _ _ _ _ _ => 7,
    webview_eval := fun _ _ => 1,
    webview_loop := fun _ _ => 0 }

/-- C5 counterexample: when the native eval reports a non-zero status the err
message the code produces is "Could not evaluate javascript", not the claimed
"could not evaluate script". -/
theorem eval_error_message_not_as_claimed :
    (op_webview_eval oracleEvalFail (some { id := 0, js := "bad" })
        { instance_index := 1, instance_map := [(0, 7)] }).1 =
      OpOutcome.response
        { err := some "Could not evaluate javascript", ok := none } ∧
    ("Could not evaluate javascript" : String) ≠ "could not evaluate script" := by
  constructor
  · rfl
  · decide

/-- C5 (amended): for an id present in the registry and a NUL-free script,
native status 0 yields ok with an empty payload and a non-zero status yields
err with exactly the message "Could not evaluate javascript". -/
theorem eval_status_determines_response (oracle : NativeOracle)
    (s : RegistryState) (p : WebViewEvalParams) (inst : Nat)
    (hget : hashmapGet s.instance_map p.id = some inst)
    (hjs : p.js.data.contains nulChar = false) :
    op_webview_eval oracle (some p) s =
      (if oracle.webview_eval inst p.js = 0 then
        OpOutcome.response { err := none, ok := some {} }
       else
        OpOutcome.response
          { err := some "Could not evaluate javascript", ok := none },
       s, [NativeCall.webview_eval inst p.js]) := by
  have hcont : hashmapContains s.instance_map p.id = true := by
    rw [hashmapContains_eq_isSome, hget]; rfl
  have hcs : cstring_new p.js = some p.js := by
    have hjs2 : nulChar ∉ p.js.data := by simpa using hjs
    simp [cstring_new, hjs2]
  by_cases h0 : oracle.webview_eval inst p.js = 0 <;>
    simp [op_webview_eval, hcont, hget, hcs, h0]

/-- Witness for C5 (amended): an id-0 eval against a one-entry registry with
the all-succeeding oracle returns ok with the empty payload. -/
theorem eval_status_determines_response_witness :
    op_webview_eval oracleDefault (some { id := 0, js := "1+1;" })
        { instance_index := 1, instance_map := [(0, 7)] } =
      (if oracleDefault.webview_eval 7 "1+1;" = 0 then
        OpOutcome.response { err := none, ok := some {} }
       else
        OpOutcome.response
          { err := some "Could not evaluate javascript", ok := none },
       { instance_index := 1, instance_map := [(0, 7)] },
       [NativeCall.webview_eval 7 "1+1;"]) :=
  eval_status_determines_response oracleDefault
    { instance_index := 1, instance_map := [(0, 7)] }
    { id := 0, js := "1+1;" } 7 (by decide) (by decide)

/-- C8: a well-formed create request (decodable, NUL-free texts) never fails:
it responds ok with exactly the freshly allocated id, inserts exactly one new
map entry keyed by that id, and does so whatever handle value the native layer
returned (the handle is not checked). -/
theorem create_never_fails_and_inserts (oracle : NativeOracle)
    (s : RegistryState) (p : WebViewNewParams)
    (ht : p.title.data.contains nulChar = false)
    (hu : p.url.data.contains nulChar = false) :
    op_webview_new oracle (some p) s =
      (OpOutcome.response { err := none, ok := some { id := s.instance_index } },
        { instance_index := (s.instance_index + 1) % UINT32_MOD,
          instance_map := hashmapInsert s.instance_map s.instance_index
            (oracle.webview_new p.title p.url p.width p.height
              (boolToInt p.resizable) (boolToInt p.debug)
              (boolToInt p.frameless)) },
        [NativeCall.webview_new p.title p.url p.width p.height
          (boolToInt p.resizable) (boolToInt p.debug)
          (boolToInt p.frameless)]) ∧
    (hashmapContains s.instance_map s.instance_index = false →
      (hashmapInsert s.instance_map s.instance_index
          (oracle.webview_new p.title p.url p.width p.height
            (boolToInt p.resizable) (boolToInt p.debug)
            (boolToInt p.frameless))).length = s.instance_map.length + 1) ∧
    hashmapGet (hashmapInsert s.instance_map s.instance_index
        (oracle.webview_new p.title p.url p.width p.height
          (boolToInt p.resizable) (boolToInt p.debug)
          (boolToInt p.frameless))) s.instance_index =
      some (oracle.webview_new p.title p.url p.width p.height
        (boolToInt p.resizable) (boolToInt p.debug) (boolToInt p.frameless)) := by
  have ht2 : cstring_new p.title = some p.title := by
    have hmem : nulChar ∉ p.title.data := by simpa using ht
    simp [cstring_new, hmem]
  have hu2 : cstring_new p.url = some p.url := by
    have hmem : nulChar ∉ p.url.data := by simpa using hu
    simp [cstring_new, hmem]
  refine ⟨?_, ?_, ?_⟩
  · simp [op_webview_new, ht2, hu2]
  · intro hnc
    exact hashmapInsert_length_of_not_contains _ _ _ hnc
  · exact hashmapGet_insert_self _ _ _

/-- Witness for C8 at a concrete request and the empty registry. -/
theorem create_never_fails_and_inserts_witness :
    op_webview_new oracleDefault
        (some { title := "T", url := "U", width := 320, height := 240,
                resizable := true, debug := false, frameless := false })
        initialState =
      (OpOutcome.response { err := none, ok := some { id := 0 } },
        { instance_index := 1 % UINT32_MOD,
          instance_map := hashmapInsert [] 0
            (oracleDefault.webview_new "T" "U" 320 240 1 0 0) },
        [NativeCall.webview_new "T" "U" 320 240 1 0 0]) ∧
    (hashmapContains [] 0 = false →
      (hashmapInsert [] 0
        (oracleDefault.webview_new "T" "U" 320 240 1 0 0)).length = 1) ∧
    hashmapGet (hashmapInsert [] 0 (oracleDefault.webview_new "T" "U" 320 240 1 0 0))
        0 = some (oracleDefault.webview_new "T" "U" 320 240 1 0 0) := by
  have h := create_never_fails_and_inserts oracleDefault initialState
    { title := "T", url := "U", width := 320, height := 240,
      resizable := true, debug := false, frameless := false }
    (by decide) (by decide)
  exact h

/-- C7: an embedded NUL in a text field makes the C-string conversion fail and
the call panic before any native call, so the native layer never sees a
truncated string: for create unconditionally, and for eval and set-title
whenever the lookup would otherwise have reached the native call. -/
theorem embedded_nul_is_fatal_never_truncated (oracle : NativeOracle)
    (s : RegistryState) :
    (∀ p : WebViewNewParams,
      p.title.data.contains nulChar = true ∨ p.url.data.contains nulChar = true →
      (op_webview_new oracle (some p) s).1 = OpOutcome.panic' ∧
      (op_webview_new oracle (some p) s).2.2 = []) ∧
    (∀ p : WebViewEvalParams, hashmapContains s.instance_map p.id = true →
      p.js.data.contains nulChar = true →
      (op_webview_eval oracle (some p) s).1 = OpOutcome.panic' ∧
      (op_webview_eval oracle (some p) s).2.2 = []) ∧
    (∀ p : WebViewSetTitleParams, hashmapContains s.instance_map p.id = true →
      p.title.data.contains nulChar = true →
      (op_webview_set_title (some p) s).1 = OpOutcome.panic' ∧
      (op_webview_set_title (some p) s).2.2 = []) := by
  refine ⟨?_, ?_, ?_⟩
  · intro p hp
    rcases hp with hp | hp
    · have hct : cstring_new p.title = none := by
        have hmem : nulChar ∈ p.title.data := by simpa using hp
        simp [cstring_new, hmem]
      constructor <;> simp [op_webview_new, hct]
    · rcases hct : cstring_new p.title with _ | t
      · constructor <;> simp [op_webview_new, hct]
      · have hcu : cstring_new p.url = none := by
          have hmem : nulChar ∈ p.url.data := by simpa using hp
          simp [cstring_new, hmem]
        constructor <;> simp [op_webview_new, hct, hcu]
  · intro p hc hjs
    have hcs : cstring_new p.js = none := by
      have hmem : nulChar ∈ p.js.data := by simpa using hjs
      simp [cstring_new, hmem]
    rcases hget : hashmapGet s.instance_map p.id with _ | inst
    · rw [hashmapContains_eq_isSome, hget] at hc
      cases hc
    · constructor <;> simp [op_webview_eval, hc, hget, hcs]
  · intro p hc hti
    have hcs : cstring_new p.title = none := by
      have hmem : nulChar ∈ p.title.data := by simpa using hti
      simp [cstring_new, hmem]
    rcases hget : hashmapGet s.instance_map p.id with _ | inst
    · rw [hashmapContains_eq_isSome, hget] at hc
      cases hc
    · constructor <;> simp [op_webview_set_title, hc, hget, hcs]

/-- A string with an embedded NUL terminator. -/
def nulString : String := "a".push nulChar

/-- Witness for C7: a NUL-titled create and a NUL-scripted eval against a
one-entry registry both panic with no native call. -/
theorem embedded_nul_is_fatal_never_truncated_witness :
    ((op_webview_new oracleDefault
        (some { title := nulString, url := "U", width := 320, height := 240,
                resizable := true, debug := false, frameless := false })
        { instance_index := 1, instance_map := [(0, 7)] }).1 =
      OpOutcome.panic' ∧
     (op_webview_new oracleDefault
        (some { title := nulString, url := "U", width := 320, height := 240,
                resizable := true, debug := false, frameless := false })
        { instance_index := 1, instance_map := [(0, 7)] }).2.2 = []) ∧
    ((op_webview_eval oracleDefault (some { id := 0, js := nulString })
        { instance_index := 1, instance_map := [(0, 7)] }).1 =
      OpOutcome.panic' ∧
     (op_webview_eval oracleDefault (some { id := 0, js := nulString })
        { instance_index := 1, instance_map := [(0, 7)] }).2.2 = []) :=
  ⟨(embedded_nul_is_fatal_never_truncated oracleDefault
      { instance_index := 1, instance_map := [(0, 7)] }).1
      { title := nulString, url := "U", width := 320, height := 240,
        resizable := true, debug := false, frameless := false }
      (Or.inl (by decide)),
   (embedded_nul_is_fatal_never_truncated oracleDefault
      { instance_index := 1, instance_map := [(0, 7)] }).2.1
      { id := 0, js := nulString } (by decide) (by decide)⟩

/-- C6 counterexample: a decode failure is not confined to its own call — it
kills the process, so a create that follows an undecodable eval request is
never processed and produces no response, while the same create alone does. -/
theorem decode_failure_kills_subsequent_calls :
    (run oracleDefault [Request.eval none, createReqDefault]).responses = [] ∧
    (run oracleDefault [Request.eval none, createReqDefault]).alive = false ∧
    (run oracleDefault [createReqDefault]).responses ≠ [] := by
  refine ⟨rfl, rfl, ?_⟩
  intro h
  cases h

/-- C6 (amended): a decode failure panics before any registry mutation: the
step yields no response, makes no native call and leaves the registry map,
the counter and all handles unchanged — but the panic is process-fatal, so
the run is dead afterwards and later requests are not processed. -/
theorem decode_failure_panics_state_unchanged (oracle : NativeOracle)
    (req : Request) (s : RegistryState) (rs : RunState)
    (hdec : requestDecoded req = false) (halive : rs.alive = true) :
    step oracle req s = (OpOutcome.panic', s, []) ∧
    runStep oracle rs req = { rs with alive := false } := by
  have hstep : ∀ s0 : RegistryState, step oracle req s0 = (OpOutcome.panic', s0, []) := by
    intro s0
    cases req with
    | new d =>
      cases d with
      | none => rfl
      | some p => simp [requestDecoded] at hdec
    | exit d =>
      cases d with
      | none => rfl
      | some p => simp [requestDecoded] at hdec
    | eval d =>
      cases d with
      | none => rfl
      | some p => simp [requestDecoded] at hdec
    | set_color d =>
      cases d with
      | none => rfl
      | some p => simp [requestDecoded] at hdec
    | set_title d =>
      cases d with
      | none => rfl
      | some p => simp [requestDecoded] at hdec
    | set_fullscreen d =>
      cases d with
      | none => rfl
      | some p => simp [requestDecoded] at hdec
    | loop d =>
      cases d with
      | none => rfl
      | some p => simp [requestDecoded] at hdec
    | get_user_data d =>
      cases d with
      | none => rfl
      | some p => simp [requestDecoded] at hdec
  refine ⟨hstep s, ?_⟩
  simp [runStep, halive, hstep rs.reg]

/-- Witness for C6 (amended): an undecodable eval request at process start
panics, leaves the initial state untouched, and kills the run. -/
theorem decode_failure_panics_state_unchanged_witness :
    step oracleDefault (Request.eval none) initialState =
      (OpOutcome.panic', initialState, []) ∧
    runStep oracleDefault initialRunState (Request.eval none) =
      { initialRunState with alive := false } :=
  decode_failure_panics_state_unchanged oracleDefault (Request.eval none)
    initialState initialRunState (by decide) (by decide)

/-- The create, then successful exit of id 0, then eval against id 0 trace. -/
def exitThenEvalTrace : List Request :=
  [createReqDefault, Request.exit (some { id := 0 }),
   Request.eval (some { id := 0, js := "1+1;" })]

/-- C1 (the code violates it): exit responds ok but leaves the registry entry
in place, so the subsequent eval with the same id also responds ok (err stays
absent in all three responses), the map still contains id 0, and the native
eval is re-invoked on the very handle that webview_exit already destroyed. -/
theorem exit_keeps_entry_and_eval_reinvokes_handle :
    (run oracleDefault exitThenEvalTrace).responses.map (fun r => r.err) =
      [none, none, none] ∧
    (run oracleDefault exitThenEvalTrace).responses.map (fun r => r.ok) =
      [some (ResponsePayload.idResult 0), some ResponsePayload.emptyResult,
       some ResponsePayload.emptyResult] ∧
    hashmapContains (run oracleDefault exitThenEvalTrace).reg.instance_map 0 =
      true ∧
    (run oracleDefault exitThenEvalTrace).calls =
      [NativeCall.webview_new "T" "U" 320 240 1 0 0,
       NativeCall.webview_exit 7, NativeCall.webview_eval 7 "1+1;"] :=
  ⟨rfl, rfl, rfl, rfl⟩

/-- C2: starting from any reachable state, a non-create request whose decoded
id was never returned by create yields a response with err populated by the
message naming the missing id and ok absent, leaves the registry unchanged and
makes no native call. -/
theorem unknown_id_yields_err_no_native_call (oracle : NativeOracle)
    (reqs : List Request) (req : Request) (id : Nat)
    (hid : requestTargetId req = some id)
    (hnc : id ∉ (run oracle reqs).created) :
    step oracle req (run oracle reqs).reg =
      (OpOutcome.response { err := some (notFoundMessage id), ok := none },
        (run oracle reqs).reg, []) := by
  have hcont : hashmapContains (run oracle reqs).reg.instance_map id = false := by
    rcases hb : hashmapContains (run oracle reqs).reg.instance_map id
    · rfl
    · exact absurd ((RunInv_run oracle reqs).2.1 id hb) hnc
  cases req with
  | new d => cases d <;> simp [requestTargetId] at hid
  | exit d =>
    cases d with
    | none => simp [requestTargetId] at hid
    | some p =>
      have hp : p.id = id := by simpa [requestTargetId] using hid
      subst hp
      simp [step, op_webview_exit, hcont, OpOutcome.mapOk]
  | eval d =>
    cases d with
    | none => simp [requestTargetId] at hid
    | some p =>
      have hp : p.id = id := by simpa [requestTargetId] using hid
      subst hp
      simp [step, op_webview_eval, hcont, OpOutcome.mapOk]
  | set_color d =>
    cases d with
    | none => simp [requestTargetId] at hid
    | some p =>
      have hp : p.id = id := by simpa [requestTargetId] using hid
      subst hp
      simp [step, op_webview_set_color, hcont, OpOutcome.mapOk]
  | set_title d =>
    cases d with
    | none => simp [requestTargetId] at hid
    | some p =>
      have hp : p.id = id := by simpa [requestTargetId] using hid
      subst hp
      simp [step, op_webview_set_title, hcont, OpOutcome.mapOk]
  | set_fullscreen d =>
    cases d with
    | none => simp [requestTargetId] at hid
    | some p =>
      have hp : p.id = id := by simpa [requestTargetId] using hid
      subst hp
      simp [step, op_webview_set_fullscreen, hcont, OpOutcome.mapOk]
  | loop d =>
    cases d with
    | none => simp [requestTargetId] at hid
    | some p =>
      have hp : p.id = id := by simpa [requestTargetId] using hid
      subst hp
      simp [step, op_webview_loop, hcont, OpOutcome.mapOk]
  | get_user_data d =>
    cases d with
    | none => simp [requestTargetId] at hid
    | some p =>
      have hp : p.id = id := by simpa [requestTargetId] using hid
      subst hp
      simp [step, op_webview_get_user_data, hcont, OpOutcome.mapOk]

/-- Witness for C2: at process start, an eval against the never-created id 5
draws the not-found error response and no native call. -/
theorem unknown_id_yields_err_no_native_call_witness :
    step oracleDefault (Request.eval (some { id := 5, js := "x" }))
        (run oracleDefault []).reg =
      (OpOutcome.response { err := some (notFoundMessage 5), ok := none },
        (run oracleDefault []).reg, []) :=
  unknown_id_yields_err_no_native_call oracleDefault []
    (Request.eval (some { id := 5, js := "x" })) 5 (by decide) (by decide)

/-! Counter wrap-around: ids repeat once 2^32 creates have happened. -/

theorem run_append_single (oracle : NativeOracle) (reqs : List Request)
    (req : Request) :
    run oracle (reqs ++ [req]) = runStep oracle (run oracle reqs) req := by
  simp [run, List.foldl_append]

/-- The default create request always succeeds and allocates the current
counter value. -/
theorem step_createReqDefault (oracle : NativeOracle) (s : RegistryState) :
    step oracle createReqDefault s =
      (OpOutcome.response
          { err := none,
            ok := some (ResponsePayload.idResult s.instance_index) },
        { instance_index := (s.instance_index + 1) % UINT32_MOD,
          instance_map := hashmapInsert s.instance_map s.instance_index
            (oracle.webview_new "T" "U" 320 240 1 0 0) },
        [NativeCall.webview_new "T" "U" 320 240 1 0 0]) := by
  have hT : cstring_new "T" = some "T" := rfl
  have hU : cstring_new "U" = some "U" := rfl
  simp [step, createReqDefault, op_webview_new, hT, hU, OpOutcome.mapOk,
    boolToInt]

/-- A pure-create trace keeps the process alive and performs one create per
request. -/
theorem run_replicate_create (n : Nat) :
    (run oracleDefault (List.replicate n createReqDefault)).created.length = n ∧
    (run oracleDefault (List.replicate n createReqDefault)).alive = true := by
  induction n with
  | zero => exact ⟨rfl, rfl⟩
  | succ n ih =>
    obtain ⟨hlen, halive⟩ := ih
    rw [List.replicate_succ', run_append_single]
    simp [runStep, halive, step_createReqDefault, createdOf, hlen]

/-- C3 counterexample: on the trace of 2^32 + 1 create calls the returned
identifiers are not pairwise distinct — the u32 counter wraps, id 0 is handed
out twice, and strict monotonicity fails. -/
theorem create_ids_repeat_after_wrap :
    ¬ ((run oracleDefault
        (List.replicate (UINT32_MOD + 1) createReqDefault)).created).Nodup := by
  intro hnd
  have hlen := (run_replicate_create (UINT32_MOD + 1)).1
  have hform := (RunInv_run oracleDefault
    (List.replicate (UINT32_MOD + 1) createReqDefault)).1
  rw [hform, hlen] at hnd
  have hinj := List.nodup_iff_injective_get.mp hnd
  have hlist : (List.map (fun k => k % UINT32_MOD)
      (List.range (UINT32_MOD + 1))).length = UINT32_MOD + 1 := by simp
  have h0 : (List.map (fun k => k % UINT32_MOD)
      (List.range (UINT32_MOD + 1))).get ⟨0, by rw [hlist]; omega⟩ = 0 := by
    rw [List.get_eq_getElem, List.getElem_map, List.getElem_range]
    exact Nat.zero_mod _
  have hM : (List.map (fun k => k % UINT32_MOD)
      (List.range (UINT32_MOD + 1))).get ⟨UINT32_MOD, by rw [hlist]; omega⟩ = 0 := by
    rw [List.get_eq_getElem, List.getElem_map, List.getElem_range]
    exact Nat.mod_self _
  have heq := hinj (h0.trans hM.symm)
  have hval : (0 : Nat) = UINT32_MOD := congrArg Fin.val heq
  simp [UINT32_MOD] at hval

/-- C3 (amended): the identifiers returned by successive create calls are
strictly increasing and pairwise distinct as long as at most 2^32 creates have
completed (beyond that the u32 counter wraps), whatever other operations are
interleaved. -/
theorem create_ids_strictly_increasing_before_wrap (oracle : NativeOracle)
    (reqs : List Request)
    (h : (run oracle reqs).created.length ≤ UINT32_MOD) :
    List.Pairwise (· < ·) (run oracle reqs).created ∧
      ((run oracle reqs).created).Nodup := by
  have hform := (RunInv_run oracle reqs).1
  have hmap : List.map (fun k => k % UINT32_MOD)
      (List.range (run oracle reqs).created.length) =
      List.range (run oracle reqs).created.length := by
    have h2 : ∀ a ∈ List.range (run oracle reqs).created.length,
        a % UINT32_MOD = a := fun a ha =>
      Nat.mod_eq_of_lt (lt_of_lt_of_le (List.mem_range.mp ha) h)
    have h3 : List.map (fun k => k % UINT32_MOD)
        (List.range (run oracle reqs).created.length) =
        List.map (fun a => a) (List.range (run oracle reqs).created.length) :=
      List.map_congr_left h2
    rw [h3, List.map_id' _]
  rw [hform, hmap]
  exact ⟨List.pairwise_lt_range _, List.nodup_range _⟩

/-- Witness for C3 (amended): two creates from process start yield the
strictly increasing, duplicate-free id list [0, 1]. -/
theorem create_ids_strictly_increasing_before_wrap_witness :
    (run oracleDefault [createReqDefault, createReqDefault]).created.length ≤
      UINT32_MOD ∧
    List.Pairwise (· < ·)
      (run oracleDefault [createReqDefault, createReqDefault]).created ∧
    ((run oracleDefault [createReqDefault, createReqDefault]).created).Nodup :=
  ⟨by decide,
   create_ids_strictly_increasing_before_wrap oracleDefault
     [createReqDefault, createReqDefault] (by decide)⟩

/-- C10: the counter starts at 0 and each create returns the counter value
from before its increment, so the id handed out by the k+1-st completed
create of the process is k reduced modulo 2^32. -/
theorem counter_starts_zero_nth_create_id :
    initialState.instance_index = 0 ∧
    ∀ (oracle : NativeOracle) (reqs : List Request) (k : Nat)
      (hk : k < (run oracle reqs).created.length),
      (run oracle reqs).created.get ⟨k, hk⟩ = k % UINT32_MOD := by
  refine ⟨rfl, ?_⟩
  intro oracle reqs k hk
  have hform := (RunInv_run oracle reqs).1
  obtain ⟨n, hn⟩ : ∃ n, (run oracle reqs).created.length = n :=
    ⟨(run oracle reqs).created.length, rfl⟩
  rw [hn] at hform
  rw [List.get_eq_getElem]
  simp only [hform, List.getElem_map, List.getElem_range]

/-- Witness for C10: the first create of the process returns id 0 = 0 % 2^32. -/
theorem counter_starts_zero_nth_create_id_witness :
    initialState.instance_index = 0 ∧
    (run oracleDefault [createReqDefault]).created.get ⟨0, by decide⟩ =
      0 % UINT32_MOD :=
  ⟨counter_starts_zero_nth_create_id.1,
   counter_starts_zero_nth_create_id.2 oracleDefault [createReqDefault] 0
     (by decide)⟩

end DenoWebview
